import Mathlib

/-!
Verification of the ETF grid-trading analyzer
(`src/backend/services/etf_analyzer.py`, class `ETFAnalyzer`).

Embedding conventions:
* Python floats are modelled as exact rationals (`ℚ`) in the scoring /
  parameter-recommendation pipeline, and as real numbers (`ℝ`) in the
  statistical characteristic analyzer (which needs square roots for
  standard deviations).  All claim-relevant comparisons sit far from any
  float rounding boundary, so branch decisions agree with the Python code.
* Python `int(x)` truncates toward zero; `pytrunc` reproduces this.
* Division by zero: Lean's `x / 0 = 0` convention is used for total
  functions; where Python would raise `ZeroDivisionError` and the source
  catches it (the grid-count band computation, and the mid-point deviation
  in the two scorers), the zero-denominator case is modelled explicitly as
  the source's `except` fallback branch.
* The human-readable Chinese strings for warnings / disqualifying reasons
  carry interpolated values in the source; here they are modelled as the
  inductive tags `Warning` and `Reason` (the interpolated text is pure
  presentation).  Market-character labels are kept as the source's literal
  strings because `evaluate_adaptability` branches on them as strings and
  has a fourth branch for unrecognized labels.
* Fields of the source's result dictionaries that no claim touches and that
  are pure presentation or wall-clock data (`calculation_basis`,
  `recommendation`, `analysis_date`, string formatting of dates) are
  omitted; every branch decision and every numeric field is kept.
-/

namespace ETFAnalyzer

/-- Python `int(x)`: truncation toward zero. -/
def pytrunc (q : ℚ) : ℤ := if 0 ≤ q then ⌊q⌋ else ⌈q⌉

/-- The `analysis_result` dictionary consumed by `evaluate_adaptability`
(non-error variant): exactly the fields that method reads. -/
structure AnalysisResult where
  avg_amplitude : ℚ
  volatility : ℚ
  market_character : String
  oscillation_score : ℚ
  liquidity_score : ℚ
  avg_volume : ℚ
  deriving DecidableEq

/-- The `grid_params` dictionary: caller-supplied actual configuration. -/
structure GridParams where
  price_range_ratio : ℚ
  grid_count : ℤ
  frequency_match_score : ℚ
  predicted_daily_triggers : ℚ
  deriving DecidableEq

/-- Result of `_calculate_optimal_price_range` (the `calculation_basis`
string is presentation and omitted). -/
structure OptimalRangeSpec where
  base_range : ℚ
  min_range : ℚ
  max_range : ℚ
  deriving DecidableEq

/-- Result of `_calculate_optimal_grid_count`. -/
structure OptimalCountSpec where
  base_count : ℤ
  min_count : ℤ
  max_count : ℤ
  frequency_type : String
  deriving DecidableEq

/-- Tags for the warning strings appended by `evaluate_adaptability` and
`_evaluate_grid_params_with_frequency_matching`.  The last five arise only
inside the grid-parameter evaluation. -/
inductive Warning where
  | amplitudeLow        -- "日均振幅偏低，可能影响网格收益"
  | volatilityLow       -- "波动率偏低，网格交易机会较少"
  | volatilityHigh      -- "波动率过高，风险较大"
  | liquidityModerate   -- "流动性一般，需注意交易冲击成本"
  | rangeTooSmall       -- "价格区间过小(...)，建议调整至..."
  | rangeTooLarge       -- "价格区间过大(...)，建议调整至..."
  | countTooFew         -- "网格数量过少(...)，建议调整至..."
  | countTooMany        -- "网格数量过多(...)，建议调整至..."
  | frequencyMismatch   -- "当前参数预计触发频率与期望不符，匹配度仅..."
  deriving DecidableEq

/-- Tags for the disqualifying reason strings of `evaluate_adaptability`. -/
inductive Reason where
  | amplitudeTooSmall     -- "日均振幅过小，难以覆盖交易成本"
  | strongTrend           -- "市场趋势性较强，不适合网格交易"
  | liquidityInsufficient -- "流动性不足，可能存在交易风险"
  deriving DecidableEq

/-- True exactly on the warnings produced by the grid-parameter evaluation. -/
def Warning.isGridParam : Warning → Bool
  | .rangeTooSmall => true
  | .rangeTooLarge => true
  | .countTooFew => true
  | .countTooMany => true
  | .frequencyMismatch => true
  | _ => false

/-- The `status` strings of the range / count evaluations. -/
inductive EvalStatus where
  | good             -- "good"
  | needsAdjustment  -- "needs_adjustment"
  deriving DecidableEq

/-- The `range_evaluation` sub-dictionary. -/
structure RangeEvaluation where
  score : ℕ
  actual : ℚ
  optimal : OptimalRangeSpec
  status : EvalStatus
  deriving DecidableEq

/-- The `count_evaluation` sub-dictionary. -/
structure CountEvaluation where
  score : ℕ
  actual : ℤ
  optimal : OptimalCountSpec
  status : EvalStatus
  deriving DecidableEq

/-- The `frequency_matching` sub-dictionary. -/
structure FrequencyMatching where
  target_triggers : ℚ
  predicted_triggers : ℚ
  match_score : ℚ
  bonus_score : ℕ
  deriving DecidableEq

/-- Result of `_evaluate_grid_params_with_frequency_matching`
(the `suggestions` list is never populated by the source and is omitted). -/
structure GridEvaluation where
  total_score : ℕ
  range_evaluation : RangeEvaluation
  count_evaluation : CountEvaluation
  frequency_matching : FrequencyMatching
  warnings : List Warning
  deriving DecidableEq

/-- The five recorded dimension scores of `evaluate_adaptability`. -/
structure DimensionScores where
  amplitude_score : ℕ
  volatility_score : ℕ
  market_score : ℕ
  liquidity_score : ℕ
  grid_params_score : ℕ
  deriving DecidableEq

/-- The suitability verdict returned by `evaluate_adaptability` on the
non-error path (the `recommendation` string is presentation and omitted). -/
structure SuitabilityVerdict where
  is_suitable : Bool
  score : ℕ
  max_score : ℕ
  dimension_scores : DimensionScores
  grid_params_details : GridEvaluation
  reasons : List Reason
  warnings : List Warning
  deriving DecidableEq

/-- `target_daily_frequencies.get(user_frequency, 2.5)`: the dictionary
lookup with default 2.5 performed by
`_evaluate_grid_params_with_frequency_matching`. -/
def targetTriggers (user_frequency : String) : ℚ :=
  if user_frequency = "high" then 5.5
  else if user_frequency = "medium" then 2.5
  else if user_frequency = "low" then 1.0
  else 2.5

/-- `_calculate_optimal_price_range`.  The `try` body is total (pure float
arithmetic raises nothing), so the `except` branch returning the default
band 0.10–0.25 is unreachable and not modelled. -/
def calculate_optimal_price_range (avg_amplitude target_triggers : ℚ) :
    OptimalRangeSpec :=
  let frequency_multiplier := target_triggers * 1.2
  let safety_margin : ℚ := 1.5
  let base_range := avg_amplitude * frequency_multiplier * safety_margin
  let min_range := max 0.02 (base_range * 0.8)
  let max_range := min 0.50 (base_range * 1.3)
  let min_range' := if min_range ≥ max_range then max_range * 0.8 else min_range
  { base_range := base_range, min_range := min_range', max_range := max_range }

/-- The `default_ranges.get(frequency_type, default_ranges['medium'])`
fallback bands of `_calculate_optimal_grid_count`; `base_count` is
`(min + max) // 2` (Python floor division on positive ints). -/
def defaultCountSpec (frequency_type : String) : OptimalCountSpec :=
  if frequency_type = "high" then
    { base_count := 18, min_count := 12, max_count := 25, frequency_type := frequency_type }
  else if frequency_type = "medium" then
    { base_count := 10, min_count := 6, max_count := 15, frequency_type := frequency_type }
  else if frequency_type = "low" then
    { base_count := 5, min_count := 3, max_count := 8, frequency_type := frequency_type }
  else
    { base_count := 10, min_count := 6, max_count := 15, frequency_type := frequency_type }

/-- `_calculate_optimal_grid_count`.  In Python the `try` body raises
exactly when `target_triggers == 0` (ZeroDivisionError in
`avg_amplitude / target_triggers`) or `avg_amplitude / target_triggers == 0`
(ZeroDivisionError in `base_range / ...`), i.e. precisely when
`avg_amplitude / target_triggers = 0` over ℚ; that case is routed to the
`except` fallback `defaultCountSpec`. -/
def calculate_optimal_grid_count (frequency_type : String)
    (target_triggers base_range avg_amplitude : ℚ) : OptimalCountSpec :=
  if avg_amplitude / target_triggers = 0 then
    defaultCountSpec frequency_type
  else
    let base_count := pytrunc (base_range / (avg_amplitude / target_triggers))
    let mn :=
      if frequency_type = "high" then max 12 (base_count - 5)
      else if frequency_type = "medium" then max 6 (base_count - 3)
      else max 3 (base_count - 2)
    let mx :=
      if frequency_type = "high" then min 30 (base_count + 8)
      else if frequency_type = "medium" then min 18 (base_count + 5)
      else min 10 (base_count + 3)
    let mx' := if mn ≥ mx then mn + 3 else mx
    { base_count := base_count, min_count := mn, max_count := mx',
      frequency_type := frequency_type }

/-- `_score_price_range`.  The only possible exception in the `try` body is
the ZeroDivisionError when the band midpoint is 0; the source's `except`
then returns the neutral score 2.  Note the deviation divides by the
midpoint itself (not its absolute value), exactly as the source does. -/
def score_price_range (actual_range : ℚ) (optimal_range : OptimalRangeSpec) : ℕ :=
  if optimal_range.min_range ≤ actual_range ∧ actual_range ≤ optimal_range.max_range then 5
  else
    let optimal_center := (optimal_range.min_range + optimal_range.max_range) / 2
    if optimal_center = 0 then 2
    else
      let deviation := |actual_range - optimal_center| / optimal_center
      if deviation < 0.2 then 4
      else if deviation < 0.4 then 3
      else if deviation < 0.6 then 2
      else if deviation < 1.0 then 1
      else 0

/-- `_score_grid_count`: same ladder as `score_price_range`, on the integer
grid count (the midpoint uses Python's true division, hence ℚ). -/
def score_grid_count (actual_count : ℤ) (optimal_count : OptimalCountSpec) : ℕ :=
  if optimal_count.min_count ≤ actual_count ∧ actual_count ≤ optimal_count.max_count then 5
  else
    let optimal_center : ℚ := ((optimal_count.min_count : ℚ) + (optimal_count.max_count : ℚ)) / 2
    if optimal_center = 0 then 2
    else
      let deviation := |(actual_count : ℚ) - optimal_center| / optimal_center
      if deviation < 0.2 then 4
      else if deviation < 0.4 then 3
      else if deviation < 0.6 then 2
      else if deviation < 1.0 then 1
      else 0

/-- `_evaluate_grid_params_with_frequency_matching`.  All callees are total
here, so the outer `except` branch (total_score 0) is unreachable and not
modelled.  `analysis_result.get('avg_amplitude', 0.02)` and the two
`grid_params.get(..., 0)` lookups always find their key on the record
types above. -/
def evaluate_grid_params_with_frequency_matching (analysis_result : AnalysisResult)
    (grid_params : GridParams) (user_frequency : String) : GridEvaluation :=
  let target_triggers := targetTriggers user_frequency
  let avg_amplitude := analysis_result.avg_amplitude
  let optimal_range := calculate_optimal_price_range avg_amplitude target_triggers
  let optimal_grid_count := calculate_optimal_grid_count user_frequency target_triggers
      optimal_range.base_range avg_amplitude
  let actual_range := grid_params.price_range_ratio
  let actual_count := grid_params.grid_count
  let range_score := score_price_range actual_range optimal_range
  let count_score := score_grid_count actual_count optimal_grid_count
  let frequency_match_score := grid_params.frequency_match_score
  let bonus_score : ℕ :=
    if frequency_match_score > 0.8 then 2
    else if frequency_match_score > 0.6 then 1
    else 0
  let total_score := min 10 (range_score + count_score + bonus_score)
  let warnings : List Warning :=
    (if range_score < 3 then
      [if actual_range < optimal_range.min_range then .rangeTooSmall else .rangeTooLarge]
     else []) ++
    (if count_score < 3 then
      [if actual_count < optimal_grid_count.min_count then .countTooFew else .countTooMany]
     else []) ++
    (if frequency_match_score < 0.6 then [.frequencyMismatch] else [])
  { total_score := total_score
    range_evaluation :=
      { score := range_score, actual := actual_range, optimal := optimal_range,
        status := if range_score ≥ 4 then .good else .needsAdjustment }
    count_evaluation :=
      { score := count_score, actual := actual_count, optimal := optimal_grid_count,
        status := if count_score ≥ 4 then .good else .needsAdjustment }
    frequency_matching :=
      { target_triggers := target_triggers,
        predicted_triggers := grid_params.predicted_daily_triggers,
        match_score := frequency_match_score, bonus_score := bonus_score }
    warnings := warnings }

/-- Score / warnings / reasons contributed by one dimension of
`evaluate_adaptability`. -/
structure DimResult where
  score : ℕ
  warnings : List Warning
  reasons : List Reason
  deriving DecidableEq

/-- Amplitude dimension (30 points) of `evaluate_adaptability`. -/
def amplitudeDim (avg_amplitude : ℚ) : DimResult :=
  if avg_amplitude ≥ 2.0 then ⟨30, [], []⟩
  else if avg_amplitude ≥ 1.5 then ⟨20, [.amplitudeLow], []⟩
  else ⟨0, [], [.amplitudeTooSmall]⟩

/-- Volatility dimension (25 points). -/
def volatilityDim (volatility : ℚ) : DimResult :=
  if 15 ≤ volatility ∧ volatility ≤ 40 then ⟨25, [], []⟩
  else if volatility < 15 then ⟨15, [.volatilityLow], []⟩
  else ⟨10, [.volatilityHigh], []⟩

/-- Market-character dimension (20 points); branches on the literal label,
with a zero-score default for unrecognized labels. -/
def marketDim (market_character : String) : DimResult :=
  if market_character = "震荡" then ⟨20, [], []⟩
  else if market_character = "弱趋势" then ⟨15, [], []⟩
  else if market_character = "强趋势" then ⟨5, [], [.strongTrend]⟩
  else ⟨0, [], []⟩

/-- Liquidity dimension (15 points). -/
def liquidityDim (liquidity_score avg_volume : ℚ) : DimResult :=
  if liquidity_score ≥ 0.7 ∧ avg_volume ≥ 1000000 then ⟨15, [], []⟩
  else if liquidity_score ≥ 0.5 ∧ avg_volume ≥ 500000 then ⟨10, [.liquidityModerate], []⟩
  else ⟨0, [], [.liquidityInsufficient]⟩

/-- `evaluate_adaptability`, non-error path (when `'error' in
analysis_result` the source short-circuits to an unsuitable verdict with
score 0 before reaching this logic; the claims below all concern the
non-error path).  Score and the warning / reason lists accumulate in the
source's execution order; `volatilityDim` contributes no reason and
`marketDim` no warning, so the interleaved appends below reproduce the
exact list contents and order. -/
def evaluate_adaptability (analysis_result : AnalysisResult)
    (grid_params : GridParams) (user_frequency : String) : SuitabilityVerdict :=
  let amp := amplitudeDim analysis_result.avg_amplitude
  let vol := volatilityDim analysis_result.volatility
  let mkt := marketDim analysis_result.market_character
  let liq := liquidityDim analysis_result.liquidity_score analysis_result.avg_volume
  let ge := evaluate_grid_params_with_frequency_matching analysis_result grid_params
      user_frequency
  let score := amp.score + vol.score + mkt.score + liq.score + ge.total_score
  let reasons := amp.reasons ++ vol.reasons ++ mkt.reasons ++ liq.reasons
  let warnings := amp.warnings ++ vol.warnings ++ mkt.warnings ++ liq.warnings ++
    (if ge.total_score < 8 then ge.warnings else [])
  { is_suitable := decide (60 ≤ score ∧ reasons = [])
    score := score
    max_score := 100
    dimension_scores :=
      { amplitude_score := amp.score, volatility_score := vol.score,
        market_score := mkt.score, liquidity_score := liq.score,
        grid_params_score := ge.total_score }
    grid_params_details := ge
    reasons := reasons
    warnings := warnings }

/-! ### The characteristic analyzer

`analyze_etf_characteristics` and its statistical helpers.  Standard
deviations involve square roots, so this layer is modelled over `ℝ`. -/

noncomputable section

/-- np.mean (population mean); 0 on the empty list (the analyzer's 20-point
precondition keeps it away from that degenerate case). -/
def npMean (l : List ℝ) : ℝ := l.sum / l.length

/-- np.std: population standard deviation. -/
def npStd (l : List ℝ) : ℝ :=
  Real.sqrt ((l.map (fun x => (x - npMean l) ^ 2)).sum / l.length)

/-- `_calculate_trend_slope`: np.polyfit(x, prices, 1) is the least-squares
line over x = 0,…,n−1; its slope is (n·Σxy − Σx·Σy) / (n·Σx² − (Σx)²).
With Lean's zero-division convention a degenerate denominator (n ≤ 1)
yields 0, agreeing with the source's `except` fallback of 0.0. -/
def calculate_trend_slope (prices : List ℝ) : ℝ :=
  let n : ℝ := prices.length
  let xs : List ℝ := (List.range prices.length).map (fun i => (i : ℝ))
  let sx := xs.sum
  let sy := prices.sum
  let sxy := (List.zipWith (· * ·) xs prices).sum
  let sxx := (xs.map (fun x => x ^ 2)).sum
  (n * sxy - sx * sy) / (n * sxx - sx ^ 2)

/-- `_determine_trend_direction`. -/
def determine_trend_direction (slope : ℝ) : String :=
  if slope > 0.01 then "上涨趋势"
  else if slope < -0.01 then "下跌趋势"
  else "震荡"

/-- `_calculate_oscillation_score`.  numpy scalar division by a zero mean
produces nan/inf with a warning rather than raising, so the source's
`except` branch is unreachable; the claims use this only on series with
positive means, where the formula below is exactly the source's. -/
def calculate_oscillation_score (prices amplitudes : List ℝ) : ℝ :=
  let price_cv := npStd prices / npMean prices
  let amplitude_cv := npStd amplitudes / npMean amplitudes
  min 1.0 ((price_cv * 10 + amplitude_cv) / 2)

/-- `_calculate_liquidity_score` (same remark about the unreachable
`except` branch as for the oscillation score). -/
def calculate_liquidity_score (volumes : List ℝ) (avg_volume : ℝ) : ℝ :=
  let volume_cv := npStd volumes / npMean volumes
  let volume_adequacy := min 1.0 (avg_volume / 1000000)
  (1 - min 1.0 volume_cv) * 0.5 + volume_adequacy * 0.5

/-- `_classify_volatility`. -/
def classify_volatility (volatility : ℝ) : String :=
  if volatility < 10 then "低波动"
  else if volatility < 25 then "中等波动"
  else if volatility < 40 then "高波动"
  else "极高波动"

/-- `_classify_amplitude`. -/
def classify_amplitude (avg_amplitude : ℝ) : String :=
  if avg_amplitude < 1.0 then "极小振幅"
  else if avg_amplitude < 1.5 then "小振幅"
  else if avg_amplitude < 2.5 then "中等振幅"
  else if avg_amplitude < 4.0 then "大振幅"
  else "极大振幅"

/-- `_classify_market_character` (the trend-direction argument is accepted
and ignored, exactly as in the source). -/
def classify_market_character (oscillation_score : ℝ) (trend_direction : String) : String :=
  if oscillation_score > 0.6 then "震荡"
  else if oscillation_score > 0.3 then "弱趋势"
  else "强趋势"

/-- `_classify_distribution`. -/
def classify_distribution (skewness kurtosis : ℝ) : String :=
  if |skewness| < 0.5 ∧ |kurtosis| < 0.5 then "正态分布"
  else if skewness > 0.5 then "右偏分布"
  else if skewness < -0.5 then "左偏分布"
  else "其他分布"

/-- np.percentile with its default linear interpolation: on the ascending
sort a of the data, the q-th percentile is a[i] + (pos − i)·(a[i+1] − a[i])
with pos = (n−1)·q/100 and i = ⌊pos⌋ (the second term vanishes when pos is
integral, which covers the pos = n−1 endpoint). -/
def npPercentile (l : List ℝ) (q : ℝ) : ℝ :=
  let s := l.insertionSort (· ≤ ·)
  let pos := ((l.length : ℝ) - 1) * q / 100
  let i := ⌊pos⌋₊
  let lo := s.getD i 0
  let hi := s.getD (i + 1) 0
  lo + (pos - (i : ℝ)) * (hi - lo)

/-- Central moment Σ(x − mean)^k / n of order k. -/
def centralMoment (l : List ℝ) (k : ℕ) : ℝ :=
  (l.map (fun x => (x - npMean l) ^ k)).sum / l.length

/-- scipy.stats.skew with its defaults (biased): m3 / m2^(3/2). -/
def statsSkew (l : List ℝ) : ℝ :=
  centralMoment l 3 / (centralMoment l 2 * Real.sqrt (centralMoment l 2))

/-- scipy.stats.kurtosis with its defaults (biased, Fisher): m4 / m2² − 3. -/
def statsKurtosis (l : List ℝ) : ℝ :=
  centralMoment l 4 / (centralMoment l 2) ^ 2 - 3

/-- The `price_distribution` sub-dictionary. -/
structure PriceDistribution where
  q25 : ℝ
  q50 : ℝ
  q75 : ℝ
  iqr : ℝ
  skewness : ℝ
  kurtosis : ℝ
  distribution_type : String

/-- `_analyze_price_distribution` (`try` body; the `except` fallback of
all-zero stats with type "无法分析" is unreachable for this total model). -/
def analyze_price_distribution (prices : List ℝ) : PriceDistribution :=
  let q25 := npPercentile prices 25
  let q50 := npPercentile prices 50
  let q75 := npPercentile prices 75
  let skewness := statsSkew prices
  let kurtosis := statsKurtosis prices
  { q25 := q25, q50 := q50, q75 := q75, iqr := q75 - q25,
    skewness := skewness, kurtosis := kurtosis,
    distribution_type := classify_distribution skewness kurtosis }

/-- One row of the historical DataFrame: the columns the analyzer reads
(trade dates as numbers, e.g. YYYYMMDD). -/
structure Bar where
  trade_date : ℕ
  close : ℝ
  vol : ℝ
  amplitude : ℝ

/-- The full statistics record of `analyze_etf_characteristics` (the
wall-clock `analysis_date` is omitted; `start_date` / `end_date` are kept
as the min / max trade date, their string formatting being presentation). -/
structure CharacteristicAnalysis where
  current_price : ℝ
  avg_price : ℝ
  price_std : ℝ
  price_range : ℝ
  volatility : ℝ
  volatility_level : String
  avg_amplitude : ℝ
  max_amplitude : ℝ
  min_amplitude : ℝ
  amplitude_std : ℝ
  amplitude_level : String
  avg_volume : ℝ
  volume_std : ℝ
  liquidity_score : ℝ
  trend_slope : ℝ
  trend_direction : String
  oscillation_score : ℝ
  market_character : String
  price_distribution : PriceDistribution
  data_points : ℕ
  start_date : ℕ
  end_date : ℕ

/-- Outcome of `analyze_etf_characteristics`: either the insufficient-data
error record, i.e. the dictionary holding only the fixed error message
"数据不足，无法进行分析" and 'data_points' — returned as a normal value,
not raised — or the full statistics record. -/
inductive AnalysisOutcome where
  | insufficient_data (data_points : ℕ)
  | ok (result : CharacteristicAnalysis)

/-- np.diff(p) / p[:-1]: the simple daily returns. -/
def daily_returns (close_prices : List ℝ) : List ℝ :=
  List.zipWith (fun p q => (q - p) / p) close_prices close_prices.tail

/-- `analyze_etf_characteristics`.  The guard `historical_data.empty or
len(historical_data) < 20` collapses to `length < 20` (empty means length
0).  Annualized volatility is std(returns)·√252·100. -/
def analyze_etf_characteristics (historical_data : List Bar) : AnalysisOutcome :=
  if historical_data.length < 20 then
    .insufficient_data historical_data.length
  else
    let close_prices := historical_data.map (·.close)
    let volumes := historical_data.map (·.vol)
    let amplitudes := historical_data.map (·.amplitude)
    let volatility := npStd (daily_returns close_prices) * Real.sqrt 252 * 100
    let avg_amplitude := npMean amplitudes
    let avg_volume := npMean volumes
    let trend_slope := calculate_trend_slope close_prices
    let trend_direction := determine_trend_direction trend_slope
    let oscillation_score := calculate_oscillation_score close_prices amplitudes
    .ok
      { current_price := close_prices.getLastD 0
        avg_price := npMean close_prices
        price_std := npStd close_prices
        price_range := close_prices.max?.getD 0 - close_prices.min?.getD 0
        volatility := volatility
        volatility_level := classify_volatility volatility
        avg_amplitude := avg_amplitude
        max_amplitude := amplitudes.max?.getD 0
        min_amplitude := amplitudes.min?.getD 0
        amplitude_std := npStd amplitudes
        amplitude_level := classify_amplitude avg_amplitude
        avg_volume := avg_volume
        volume_std := npStd volumes
        liquidity_score := calculate_liquidity_score volumes avg_volume
        trend_slope := trend_slope
        trend_direction := trend_direction
        oscillation_score := oscillation_score
        market_character := classify_market_character oscillation_score trend_direction
        price_distribution := analyze_price_distribution close_prices
        data_points := historical_data.length
        start_date := (historical_data.map (·.trade_date)).min?.getD 0
        end_date := (historical_data.map (·.trade_date)).max?.getD 0 }

end

/-! ### Helper lemmas -/

/-- All three frequency tiers (and the dictionary default) have a positive
target trigger count. -/
lemma targetTriggers_pos (freq : String) : 0 < targetTriggers freq := by
  unfold targetTriggers
  split_ifs <;> norm_num

/-- For a nonnegative amplitude and positive trigger count the price-range
band is an interval (min ≤ max), even when the shrink-min adjustment
fires. -/
lemma price_range_min_le_max (a t : ℚ) (ha : 0 ≤ a) (ht : 0 < t) :
    (calculate_optimal_price_range a t).min_range ≤
      (calculate_optimal_price_range a t).max_range := by
  simp only [calculate_optimal_price_range]
  split_ifs with h
  · have hm : (0 : ℚ) ≤ min 0.50 (a * (t * 1.2) * 1.5 * 1.3) :=
      le_min (by norm_num) (by positivity)
    linarith
  · exact le_of_lt (not_le.mp h)

/-- The grid-count band is always an interval (min ≤ max): the fixed
default bands are, and the computed band is forced to be by the
`max = min + 3` correction. -/
lemma grid_count_min_le_max (freq : String) (t b a : ℚ) :
    (calculate_optimal_grid_count freq t b a).min_count ≤
      (calculate_optimal_grid_count freq t b a).max_count := by
  simp only [calculate_optimal_grid_count, defaultCountSpec]
  split_ifs <;> simp <;> omega

/-- An actual range inside the optimal band scores the perfect 5. -/
lemma score_price_range_of_mem (x : ℚ) (o : OptimalRangeSpec)
    (h1 : o.min_range ≤ x) (h2 : x ≤ o.max_range) : score_price_range x o = 5 := by
  unfold score_price_range
  rw [if_pos ⟨h1, h2⟩]

/-- An actual grid count inside the optimal band scores the perfect 5. -/
lemma score_grid_count_of_mem (x : ℤ) (o : OptimalCountSpec)
    (h1 : o.min_count ≤ x) (h2 : x ≤ o.max_count) : score_grid_count x o = 5 := by
  unfold score_grid_count
  rw [if_pos ⟨h1, h2⟩]

/-- np.std is a square root, hence nonnegative. -/
lemma npStd_nonneg (l : List ℝ) : 0 ≤ npStd l := by
  unfold npStd
  exact Real.sqrt_nonneg _

/-- A pointwise-nonnegative series has a nonnegative mean. -/
lemma npMean_nonneg (l : List ℝ) (h : ∀ x ∈ l, 0 ≤ x) : 0 ≤ npMean l := by
  unfold npMean
  exact div_nonneg (List.sum_nonneg h) (Nat.cast_nonneg _)

/-- The amplitude dimension only ever emits its own (non-grid) warning. -/
lemma amplitudeDim_warnings_not_grid (a : ℚ) (w : Warning)
    (hw : w ∈ (amplitudeDim a).warnings) : w.isGridParam = false := by
  unfold amplitudeDim at hw
  split_ifs at hw <;> simp_all [Warning.isGridParam]

/-- The volatility dimension only ever emits its own (non-grid) warnings. -/
lemma volatilityDim_warnings_not_grid (v : ℚ) (w : Warning)
    (hw : w ∈ (volatilityDim v).warnings) : w.isGridParam = false := by
  unfold volatilityDim at hw
  split_ifs at hw <;> simp_all [Warning.isGridParam]

/-- The market dimension emits no warning at all. -/
lemma marketDim_warnings_not_grid (mc : String) (w : Warning)
    (hw : w ∈ (marketDim mc).warnings) : w.isGridParam = false := by
  unfold marketDim at hw
  split_ifs at hw <;> simp_all

/-- The liquidity dimension only ever emits its own (non-grid) warning. -/
lemma liquidityDim_warnings_not_grid (ls av : ℚ) (w : Warning)
    (hw : w ∈ (liquidityDim ls av).warnings) : w.isGridParam = false := by
  unfold liquidityDim at hw
  split_ifs at hw <;> simp_all [Warning.isGridParam]

/-! ### Claim theorems -/

/-- Claim C1: on the non-error path, for every analysis result, grid
parameters and frequency, the verdict satisfies is_suitable = true iff the
total score is at least 60 and the list of disqualifying reasons is empty
(so a score of 60 or more together with a disqualifying reason still gives
is_suitable = false). -/
theorem c1_is_suitable_iff (r : AnalysisResult) (gp : GridParams) (freq : String) :
    (evaluate_adaptability r gp freq).is_suitable = true ↔
      60 ≤ (evaluate_adaptability r gp freq).score ∧
        (evaluate_adaptability r gp freq).reasons = [] := by
  simp [evaluate_adaptability]

/-- Claim C2: every series with fewer than 20 bars (the empty one included)
makes `analyze_etf_characteristics` return the insufficient-data error
record carrying the actual point count, as a normal result. -/
theorem c2_insufficient_data (bars : List Bar) (h : bars.length < 20) :
    analyze_etf_characteristics bars = .insufficient_data bars.length := by
  unfold analyze_etf_characteristics
  rw [if_pos h]

/-- Witness for C2 at the empty series. -/
theorem c2_insufficient_data_witness :
    ([] : List Bar).length < 20 ∧
      analyze_etf_characteristics [] = .insufficient_data ([] : List Bar).length :=
  ⟨by decide, c2_insufficient_data [] (by decide)⟩

/-- Counterexample to C3 as stated: at mean amplitude 0.001 and target
trigger count 1 (the low tier's value) the band becomes
[0.001872, 0.00234]: the shrink-min adjustment drives min_range below the
claimed 0.02 floor. -/
theorem c3_counterexample :
    ¬ (0.02 ≤ (calculate_optimal_price_range 0.001 1).min_range ∧
        (calculate_optimal_price_range 0.001 1).min_range <
          (calculate_optimal_price_range 0.001 1).max_range ∧
        (calculate_optimal_price_range 0.001 1).max_range ≤ 0.50) := by
  norm_num [calculate_optimal_price_range, min_def, max_def]

/-- Claim C3, amended: for every positive mean amplitude and positive
target trigger count, 0 < min_range < max_range ≤ 0.50; the lower bound
0.02 ≤ min_range holds except when the shrink-min adjustment fires, in
which case min_range = 0.8 × max_range (which can undercut the floor). -/
theorem c3_amended_price_range_bounds (a t : ℚ) (ha : 0 < a) (ht : 0 < t) :
    0 < (calculate_optimal_price_range a t).min_range ∧
    (calculate_optimal_price_range a t).min_range <
      (calculate_optimal_price_range a t).max_range ∧
    (calculate_optimal_price_range a t).max_range ≤ 0.50 ∧
    (0.02 ≤ (calculate_optimal_price_range a t).min_range ∨
      (calculate_optimal_price_range a t).min_range =
        (calculate_optimal_price_range a t).max_range * 0.8) := by
  simp only [calculate_optimal_price_range]
  split_ifs with h
  · have hm : (0 : ℚ) < min 0.50 (a * (t * 1.2) * 1.5 * 1.3) :=
      lt_min (by norm_num) (by positivity)
    exact ⟨by linarith, by linarith, min_le_left _ _, Or.inr rfl⟩
  · exact ⟨lt_of_lt_of_le (by norm_num) (le_max_left _ _), not_le.mp h,
      min_le_left _ _, Or.inl (le_max_left _ _)⟩

/-- Witness for the amended C3 at amplitude 1, trigger count 1. -/
theorem c3_amended_price_range_bounds_witness :
    (0 : ℚ) < 1 ∧ (0 : ℚ) < 1 ∧
      (0 < (calculate_optimal_price_range 1 1).min_range ∧
        (calculate_optimal_price_range 1 1).min_range <
          (calculate_optimal_price_range 1 1).max_range ∧
        (calculate_optimal_price_range 1 1).max_range ≤ 0.50 ∧
        (0.02 ≤ (calculate_optimal_price_range 1 1).min_range ∨
          (calculate_optimal_price_range 1 1).min_range =
            (calculate_optimal_price_range 1 1).max_range * 0.8)) :=
  ⟨by decide, by decide,
    c3_amended_price_range_bounds 1 1 (by decide) (by decide)⟩

/-- Counterexample to C4 as stated: at mean amplitude −1 and the medium
tier, the price band degenerates to [−4.68, −5.85] and feeding its own
min_range back scores 4, not 5. -/
theorem c4_counterexample :
    score_price_range
        (calculate_optimal_price_range (-1) (targetTriggers "medium")).min_range
        (calculate_optimal_price_range (-1) (targetTriggers "medium")) ≠ 5 := by
  have ht : targetTriggers "medium" = 2.5 := by simp [targetTriggers]
  rw [ht]
  norm_num [score_price_range, calculate_optimal_price_range,
    min_def, max_def, abs_eq_max_neg]

/-- Claim C4, amended: for every nonnegative mean amplitude and every
frequency tier, feeding either endpoint of the computed price-range band
back as the actual price_range_ratio scores 5, and feeding either endpoint
of the computed grid-count band back as the actual grid_count scores 5. -/
theorem c4_amended_round_trip (a : ℚ) (freq : String) (ha : 0 ≤ a)
    (hf : freq = "high" ∨ freq = "medium" ∨ freq = "low") :
    score_price_range (calculate_optimal_price_range a (targetTriggers freq)).min_range
        (calculate_optimal_price_range a (targetTriggers freq)) = 5 ∧
    score_price_range (calculate_optimal_price_range a (targetTriggers freq)).max_range
        (calculate_optimal_price_range a (targetTriggers freq)) = 5 ∧
    score_grid_count
        (calculate_optimal_grid_count freq (targetTriggers freq)
          (calculate_optimal_price_range a (targetTriggers freq)).base_range a).min_count
        (calculate_optimal_grid_count freq (targetTriggers freq)
          (calculate_optimal_price_range a (targetTriggers freq)).base_range a) = 5 ∧
    score_grid_count
        (calculate_optimal_grid_count freq (targetTriggers freq)
          (calculate_optimal_price_range a (targetTriggers freq)).base_range a).max_count
        (calculate_optimal_grid_count freq (targetTriggers freq)
          (calculate_optimal_price_range a (targetTriggers freq)).base_range a) = 5 := by
  have hr := price_range_min_le_max a (targetTriggers freq) ha (targetTriggers_pos freq)
  have hc := grid_count_min_le_max freq (targetTriggers freq)
    (calculate_optimal_price_range a (targetTriggers freq)).base_range a
  exact ⟨score_price_range_of_mem _ _ le_rfl hr,
    score_price_range_of_mem _ _ hr le_rfl,
    score_grid_count_of_mem _ _ le_rfl hc,
    score_grid_count_of_mem _ _ hc le_rfl⟩

/-- Witness for the amended C4 at amplitude 1, tier high. -/
theorem c4_amended_round_trip_witness :
    (0 : ℚ) ≤ 1 ∧
      ("high" = "high" ∨ "high" = "medium" ∨ "high" = "low") ∧
      score_price_range
          (calculate_optimal_price_range 1 (targetTriggers "high")).min_range
          (calculate_optimal_price_range 1 (targetTriggers "high")) = 5 :=
  ⟨by decide, Or.inl rfl,
    (c4_amended_round_trip 1 "high" (by decide) (Or.inl rfl)).1⟩

/-- Claim C6: the market-character classifier returns "震荡" (ranging)
exactly when the oscillation score exceeds 0.6, "弱趋势" (weak-trend)
exactly when it lies in (0.3, 0.6], and "强趋势" (strong-trend) exactly
when it is at most 0.3, for every score and trend direction. -/
theorem c6_classify_market_character_spec (s : ℝ) (td : String) :
    (classify_market_character s td = "震荡" ↔ 0.6 < s) ∧
    (classify_market_character s td = "弱趋势" ↔ 0.3 < s ∧ s ≤ 0.6) ∧
    (classify_market_character s td = "强趋势" ↔ s ≤ 0.3) := by
  unfold classify_market_character
  split_ifs with h1 h2
  · refine ⟨iff_of_true rfl h1, ?_, ?_⟩
    · exact iff_of_false (by decide) (fun h => absurd h.2 (not_le.mpr h1))
    · exact iff_of_false (by decide) (not_le.mpr (by linarith))
  · refine ⟨iff_of_false (by decide) h1, ?_, ?_⟩
    · exact iff_of_true rfl ⟨h2, not_lt.mp h1⟩
    · exact iff_of_false (by decide) (not_le.mpr h2)
  · refine ⟨iff_of_false (by decide) h1, ?_, ?_⟩
    · exact iff_of_false (by decide) (fun h => h2 h.1)
    · exact iff_of_true rfl (not_lt.mp h2)

/-- Claim C5: for every analysis result with avg_amplitude 2.5, volatility
20, ranging market character, liquidity score 0.8 and avg_volume 2,000,000
(the oscillation-score field is not read by the evaluator), every frequency
and every grid parameters whose price_range_ratio and grid_count lie inside
the computed optimal bands with frequency_match_score 0.9, the verdict has
total score 100, dimension scores 30 + 25 + 20 + 15 + 10, and
is_suitable = true. -/
theorem c5_perfect_scenario (r : AnalysisResult) (gp : GridParams) (freq : String)
    (h1 : r.avg_amplitude = 2.5) (h2 : r.volatility = 20)
    (h3 : r.market_character = "震荡") (h4 : r.liquidity_score = 0.8)
    (h5 : r.avg_volume = 2000000)
    (h6 : (calculate_optimal_price_range r.avg_amplitude (targetTriggers freq)).min_range ≤
        gp.price_range_ratio)
    (h7 : gp.price_range_ratio ≤
        (calculate_optimal_price_range r.avg_amplitude (targetTriggers freq)).max_range)
    (h8 : (calculate_optimal_grid_count freq (targetTriggers freq)
        (calculate_optimal_price_range r.avg_amplitude (targetTriggers freq)).base_range
        r.avg_amplitude).min_count ≤ gp.grid_count)
    (h9 : gp.grid_count ≤ (calculate_optimal_grid_count freq (targetTriggers freq)
        (calculate_optimal_price_range r.avg_amplitude (targetTriggers freq)).base_range
        r.avg_amplitude).max_count)
    (h10 : gp.frequency_match_score = 0.9) :
    (evaluate_adaptability r gp freq).score = 100 ∧
    (evaluate_adaptability r gp freq).dimension_scores = ⟨30, 25, 20, 15, 10⟩ ∧
    (evaluate_adaptability r gp freq).is_suitable = true := by
  have hrs := score_price_range_of_mem _ _ h6 h7
  have hcs := score_grid_count_of_mem _ _ h8 h9
  rw [h1] at hrs hcs
  simp only [show (2.5 : ℚ) = 5 / 2 by norm_num] at hrs hcs
  refine ⟨?_, ?_, ?_⟩ <;>
    norm_num [evaluate_adaptability, evaluate_grid_params_with_frequency_matching,
      amplitudeDim, volatilityDim, marketDim, liquidityDim, h1, h2, h3, h4, h5,
      h10, hrs, hcs, inf_eq_min, min_def]

/-- Witness for C5: medium tier, price_range_ratio 0.45 in the band
[0.4, 0.5], grid_count 10 in the band [8, 16], match score 0.9. -/
theorem c5_perfect_scenario_witness :
    ((⟨2.5, 20, "震荡", 0, 0.8, 2000000⟩ : AnalysisResult).avg_amplitude = 2.5) ∧
    ((⟨2.5, 20, "震荡", 0, 0.8, 2000000⟩ : AnalysisResult).volatility = 20) ∧
    ((⟨2.5, 20, "震荡", 0, 0.8, 2000000⟩ : AnalysisResult).market_character = "震荡") ∧
    ((⟨2.5, 20, "震荡", 0, 0.8, 2000000⟩ : AnalysisResult).liquidity_score = 0.8) ∧
    ((⟨2.5, 20, "震荡", 0, 0.8, 2000000⟩ : AnalysisResult).avg_volume = 2000000) ∧
    ((calculate_optimal_price_range 2.5 (targetTriggers "medium")).min_range ≤ (0.45 : ℚ)) ∧
    ((0.45 : ℚ) ≤ (calculate_optimal_price_range 2.5 (targetTriggers "medium")).max_range) ∧
    ((calculate_optimal_grid_count "medium" (targetTriggers "medium")
        (calculate_optimal_price_range 2.5 (targetTriggers "medium")).base_range
        2.5).min_count ≤ (10 : ℤ)) ∧
    ((10 : ℤ) ≤ (calculate_optimal_grid_count "medium" (targetTriggers "medium")
        (calculate_optimal_price_range 2.5 (targetTriggers "medium")).base_range
        2.5).max_count) ∧
    ((⟨0.45, 10, 0.9, 0⟩ : GridParams).frequency_match_score = 0.9) ∧
    ((evaluate_adaptability ⟨2.5, 20, "震荡", 0, 0.8, 2000000⟩
        ⟨0.45, 10, 0.9, 0⟩ "medium").score = 100 ∧
      (evaluate_adaptability ⟨2.5, 20, "震荡", 0, 0.8, 2000000⟩
        ⟨0.45, 10, 0.9, 0⟩ "medium").dimension_scores = ⟨30, 25, 20, 15, 10⟩ ∧
      (evaluate_adaptability ⟨2.5, 20, "震荡", 0, 0.8, 2000000⟩
        ⟨0.45, 10, 0.9, 0⟩ "medium").is_suitable = true) := by
  have e1 : targetTriggers "medium" = 2.5 := by simp [targetTriggers]
  have h6 : (calculate_optimal_price_range 2.5 (targetTriggers "medium")).min_range ≤
      (0.45 : ℚ) := by
    rw [e1]; norm_num [calculate_optimal_price_range, min_def, max_def]
  have h7 : (0.45 : ℚ) ≤
      (calculate_optimal_price_range 2.5 (targetTriggers "medium")).max_range := by
    rw [e1]; norm_num [calculate_optimal_price_range, min_def, max_def]
  have h8 : (calculate_optimal_grid_count "medium" (targetTriggers "medium")
      (calculate_optimal_price_range 2.5 (targetTriggers "medium")).base_range
      2.5).min_count ≤ (10 : ℤ) := by
    rw [e1]
    norm_num [calculate_optimal_grid_count, calculate_optimal_price_range, pytrunc,
      min_def, max_def, (show ¬ ("medium" : String) = "high" by decide)]
  have h9 : (10 : ℤ) ≤ (calculate_optimal_grid_count "medium" (targetTriggers "medium")
      (calculate_optimal_price_range 2.5 (targetTriggers "medium")).base_range
      2.5).max_count := by
    rw [e1]
    norm_num [calculate_optimal_grid_count, calculate_optimal_price_range, pytrunc,
      min_def, max_def, (show ¬ ("medium" : String) = "high" by decide)]
  exact ⟨rfl, rfl, rfl, rfl, rfl, h6, h7, h8, h9, rfl,
    c5_perfect_scenario ⟨2.5, 20, "震荡", 0, 0.8, 2000000⟩ ⟨0.45, 10, 0.9, 0⟩
      "medium" rfl rfl rfl rfl rfl h6 h7 h8 h9 rfl⟩

/-- Claim C8: with zero mean amplitude (where the band formula's division
is undefined and Python raises), the grid-count band computation returns
the tier-specific fixed default band — high 12–25, medium 6–15, low 3–8 —
for every target trigger count and base range. -/
theorem c8_zero_amplitude_default_bands (t b : ℚ) :
    ((calculate_optimal_grid_count "high" t b 0).min_count = 12 ∧
      (calculate_optimal_grid_count "high" t b 0).max_count = 25) ∧
    ((calculate_optimal_grid_count "medium" t b 0).min_count = 6 ∧
      (calculate_optimal_grid_count "medium" t b 0).max_count = 15) ∧
    ((calculate_optimal_grid_count "low" t b 0).min_count = 3 ∧
      (calculate_optimal_grid_count "low" t b 0).max_count = 8) := by
  simp [calculate_optimal_grid_count, defaultCountSpec]

/-- Claim C7: for every price and amplitude series with positive mean and
every volume series with nonnegative mean (which any nonnegative volume
series has, by npMean_nonneg), the oscillation score lies in [0, 1] and the
liquidity score — computed at the series' own mean volume, as the analyzer
calls it — lies in [0, 1]. -/
theorem c7_score_bounds (prices amplitudes volumes : List ℝ)
    (hp : 0 < npMean prices) (ha : 0 < npMean amplitudes)
    (hv : 0 ≤ npMean volumes) :
    0 ≤ calculate_oscillation_score prices amplitudes ∧
    calculate_oscillation_score prices amplitudes ≤ 1 ∧
    0 ≤ calculate_liquidity_score volumes (npMean volumes) ∧
    calculate_liquidity_score volumes (npMean volumes) ≤ 1 := by
  have hsp : 0 ≤ npStd prices / npMean prices := div_nonneg (npStd_nonneg _) hp.le
  have hsa : 0 ≤ npStd amplitudes / npMean amplitudes := div_nonneg (npStd_nonneg _) ha.le
  have hsv : 0 ≤ npStd volumes / npMean volumes := div_nonneg (npStd_nonneg _) hv
  have hm1 : min (1.0 : ℝ) (npStd volumes / npMean volumes) ≤ 1.0 := min_le_left _ _
  have hm0 : 0 ≤ min (1.0 : ℝ) (npStd volumes / npMean volumes) :=
    le_min (by norm_num) hsv
  have hn1 : min (1.0 : ℝ) (npMean volumes / 1000000) ≤ 1.0 := min_le_left _ _
  have hn0 : 0 ≤ min (1.0 : ℝ) (npMean volumes / 1000000) :=
    le_min (by norm_num) (div_nonneg hv (by norm_num))
  simp only [calculate_oscillation_score, calculate_liquidity_score]
  refine ⟨le_min (by norm_num) (by linarith),
    le_trans (min_le_left _ _) (by norm_num), by linarith, by linarith⟩

/-- Witness for C7 at the one-point series [1], [1], [1]. -/
theorem c7_score_bounds_witness :
    0 < npMean [1] ∧ 0 ≤ npMean [1] ∧
      (0 ≤ calculate_oscillation_score [1] [1] ∧
        calculate_oscillation_score [1] [1] ≤ 1 ∧
        0 ≤ calculate_liquidity_score [1] (npMean [1]) ∧
        calculate_liquidity_score [1] (npMean [1]) ≤ 1) := by
  have h : 0 < npMean [1] := by norm_num [npMean]
  exact ⟨h, h.le, c7_score_bounds [1] [1] [1] h h h.le⟩

/-- Claim C9: for a frequency string outside {high, medium, low} the tiers
are treated inconsistently: the target trigger count falls back to the
medium value 2.5, the grid-count band computation follows the low-tier
branch, and only the internal-failure fallback (here: zero amplitude)
reverts to the medium default band 6–15. -/
theorem c9_unknown_frequency (freq : String) (t b a : ℚ)
    (hf1 : freq ≠ "high") (hf2 : freq ≠ "medium") (hf3 : freq ≠ "low")
    (ha : a ≠ 0) (ht : t ≠ 0) :
    targetTriggers freq = 2.5 ∧
    (calculate_optimal_grid_count freq t b a).base_count =
      (calculate_optimal_grid_count "low" t b a).base_count ∧
    (calculate_optimal_grid_count freq t b a).min_count =
      (calculate_optimal_grid_count "low" t b a).min_count ∧
    (calculate_optimal_grid_count freq t b a).max_count =
      (calculate_optimal_grid_count "low" t b a).max_count ∧
    (calculate_optimal_grid_count freq t b 0).min_count = 6 ∧
    (calculate_optimal_grid_count freq t b 0).max_count = 15 := by
  have hdiv : a / t ≠ 0 := div_ne_zero ha ht
  refine ⟨?_, ?_, ?_, ?_, ?_, ?_⟩ <;>
    simp [targetTriggers, calculate_optimal_grid_count, defaultCountSpec,
      hf1, hf2, hf3, hdiv]

/-- Witness for C9 at the unknown frequency string "turbo". -/
theorem c9_unknown_frequency_witness :
    ("turbo" ≠ "high") ∧ ("turbo" ≠ "medium") ∧ ("turbo" ≠ "low") ∧
    ((1 : ℚ) ≠ 0) ∧
    (targetTriggers "turbo" = 2.5 ∧
      (calculate_optimal_grid_count "turbo" 1 1 1).base_count =
        (calculate_optimal_grid_count "low" 1 1 1).base_count ∧
      (calculate_optimal_grid_count "turbo" 1 1 1).min_count =
        (calculate_optimal_grid_count "low" 1 1 1).min_count ∧
      (calculate_optimal_grid_count "turbo" 1 1 1).max_count =
        (calculate_optimal_grid_count "low" 1 1 1).max_count ∧
      (calculate_optimal_grid_count "turbo" 1 1 0).min_count = 6 ∧
      (calculate_optimal_grid_count "turbo" 1 1 0).max_count = 15) :=
  ⟨by decide, by decide, by decide, by decide,
    c9_unknown_frequency "turbo" 1 1 1 (by decide) (by decide) (by decide)
      (by decide) (by decide)⟩

/-- Claim C10: a warning of the grid-parameter evaluation appears in the
verdict's warnings exactly when the grid-parameter total score is strictly
below 8 and the evaluation emitted it; at total score 8, 9 or 10 all grid
warnings are omitted. -/
theorem c10_grid_warnings_iff (r : AnalysisResult) (gp : GridParams)
    (freq : String) (w : Warning) (hw : w.isGridParam = true) :
    w ∈ (evaluate_adaptability r gp freq).warnings ↔
      ((evaluate_grid_params_with_frequency_matching r gp freq).total_score < 8 ∧
        w ∈ (evaluate_grid_params_with_frequency_matching r gp freq).warnings) := by
  have e1 : w ∉ (amplitudeDim r.avg_amplitude).warnings :=
    fun hm => absurd hw (by simp [amplitudeDim_warnings_not_grid r.avg_amplitude w hm])
  have e2 : w ∉ (volatilityDim r.volatility).warnings :=
    fun hm => absurd hw (by simp [volatilityDim_warnings_not_grid r.volatility w hm])
  have e3 : w ∉ (marketDim r.market_character).warnings :=
    fun hm => absurd hw (by simp [marketDim_warnings_not_grid r.market_character w hm])
  have e4 : w ∉ (liquidityDim r.liquidity_score r.avg_volume).warnings :=
    fun hm => absurd hw
      (by simp [liquidityDim_warnings_not_grid r.liquidity_score r.avg_volume w hm])
  by_cases hlt :
    (evaluate_grid_params_with_frequency_matching r gp freq).total_score < 8
  · simp [evaluate_adaptability, List.mem_append, hlt, e1, e2, e3, e4]
  · simp [evaluate_adaptability, List.mem_append, hlt, e1, e2, e3, e4]

/-- Witness for C10 at the frequency-mismatch warning tag. -/
theorem c10_grid_warnings_iff_witness :
    Warning.isGridParam .frequencyMismatch = true ∧
      (Warning.frequencyMismatch ∈
          (evaluate_adaptability ⟨2.5, 20, "震荡", 0, 0.8, 2000000⟩
            ⟨0.45, 10, 0.9, 0⟩ "medium").warnings ↔
        ((evaluate_grid_params_with_frequency_matching
            ⟨2.5, 20, "震荡", 0, 0.8, 2000000⟩ ⟨0.45, 10, 0.9, 0⟩
            "medium").total_score < 8 ∧
          Warning.frequencyMismatch ∈
            (evaluate_grid_params_with_frequency_matching
              ⟨2.5, 20, "震荡", 0, 0.8, 2000000⟩ ⟨0.45, 10, 0.9, 0⟩
              "medium").warnings)) :=
  ⟨rfl, c10_grid_warnings_iff ⟨2.5, 20, "震荡", 0, 0.8, 2000000⟩
    ⟨0.45, 10, 0.9, 0⟩ "medium" .frequencyMismatch rfl⟩

end ETFAnalyzer
